import Mathlib

/-!
Shallow embedding of the Stacks testnet configuration resolution engine
(`src/testnet/src/config.rs`): the data model, the compiled-in defaults, the
event-key grammar parser, the connection-tuning merger and the config
resolver, together with theorems checking the specification's claims.

External collaborators from the `stacks` crate (principal / identifier /
public-key parsing, socket addresses, network constants, the derived
baseline of the connection-options record) are not part of the unit under
review; per the specification they are opaque at the interface boundary, so
they are modelled abstractly as an `Externals` record of functions and
constants, and the theorems quantify over it.

Rust panics (`unwrap`, explicit aborts) are modelled with `Except`: a fatal
resolution is an `Except.error` carrying the abort site, and the mode-check
abort additionally carries its formatted message.
-/

namespace StacksConfig

/-- Holds when (`startsWithChars pat l`): `pat` is an initial run of `l`. -/
def startsWithChars : List Char → List Char → Bool
  | [], _ => true
  | _ :: _, [] => false
  | p :: ps, c :: cs => p == c && startsWithChars ps cs

/-- Rust `str::split` on a non-empty separator, over the underlying character
lists, with fuel for structural termination (fuel = input length suffices:
every recursive call consumes at least one character). Empty parts between
adjacent separators are kept, and the empty input yields one empty part,
exactly as in Rust. -/
def splitFuel (sep : List Char) : Nat → List Char → List (List Char)
  | _, [] => [[]]
  | 0, s => [s]
  | fuel + 1, c :: rest =>
    if startsWithChars sep (c :: rest) then
      [] :: splitFuel sep fuel (List.drop (sep.length - 1) rest)
    else
      match splitFuel sep fuel rest with
      | [] => [[c]]
      | h :: t => (c :: h) :: t

/-- Rust `str::split`, specialised to strings. -/
def rustSplit (s sep : String) : List String :=
  (splitFuel sep.data s.data.length s.data).map (fun l => String.mk l)

/-- Lowercase hex digit of a value below 16 (`stacks::util::hash::to_hex`). -/
def hexDigitChar (n : Nat) : Char :=
  if n < 10 then Char.ofNat (48 + n) else Char.ofNat (87 + n)

/-- The two lowercase hex digits of one byte. -/
def byteToHex (b : Nat) : String :=
  String.mk [hexDigitChar (b / 16 % 16), hexDigitChar (b % 16)]

/-- Lowercase hex encoding of a byte string (`to_hex`). -/
def to_hex (bs : List Nat) : String :=
  String.join (bs.map byteToHex)

/-- Big-endian `u16::from_be_bytes` over two bytes. -/
def u16_from_be_bytes (b0 b1 : Nat) : Nat := b0 * 256 + b1

/-- Saturating addition `u16::saturating_add`: clamps at the largest 16-bit value, never wraps. -/
def saturating_add_u16 (x y : Nat) : Nat := min (x + y) 65535

/-- Decidable equality of `Except` values with decidable components. -/
def exceptDecEq {e a : Type} [DecidableEq e] [DecidableEq a] :
    (x y : Except e a) → Decidable (x = y)
  | .error e1, .error e2 =>
    if h : e1 = e2 then isTrue (congrArg Except.error h)
    else isFalse (fun hc => h (by injection hc))
  | .error _, .ok _ => isFalse (fun hc => Except.noConfusion hc)
  | .ok _, .error _ => isFalse (fun hc => Except.noConfusion hc)
  | .ok a1, .ok a2 =>
    if h : a1 = a2 then isTrue (congrArg Except.ok h)
    else isFalse (fun hc => h (by injection hc))

instance {e a : Type} [DecidableEq e] [DecidableEq a] : DecidableEq (Except e a) :=
  exceptDecEq

/-- Modelled from the spec: a parsed, validated standard principal
(`stacks::vm::types::StandardPrincipalData`), opaque to this unit. -/
structure StandardPrincipalData where
  version : Nat
  bytes : List Nat
deriving DecidableEq, Repr, Inhabited

/-- Modelled from the spec: a validated identifier string
(`stacks::vm::ClarityName`), opaque to this unit. -/
structure ClarityName where
  name : String
deriving DecidableEq, Repr, Inhabited

/-- An address plus a contract name, uniquely identifying a deployed
contract (`stacks::vm::types::QualifiedContractIdentifier`). -/
structure QualifiedContractIdentifier where
  issuer : StandardPrincipalData
  name : ClarityName
deriving DecidableEq, Repr

/-- A contract identifier plus an asset name
(`stacks::vm::types::AssetIdentifier`). -/
structure AssetIdentifier where
  contract_identifier : QualifiedContractIdentifier
  asset_name : ClarityName
deriving DecidableEq, Repr

/-- The `stacks::vm::types::PrincipalData` variants; `.into()` on a standard principal
produces the `Standard` variant. -/
inductive PrincipalData where
  | Standard (data : StandardPrincipalData)
  | Contract (data : QualifiedContractIdentifier)
deriving DecidableEq, Repr

/-- Modelled from the spec: a parsed socket address (`std::net::SocketAddr`),
of which the unit only reads the port. -/
structure SocketAddr where
  host : String
  port : Nat
deriving DecidableEq, Repr

/-- Modelled from the spec: `stacks::net::PeerAddress`, opaque to this unit. -/
structure PeerAddress where
  bytes : List Nat
deriving DecidableEq, Repr

/-- Modelled from the spec: an opaque public-key value
(`stacks::util::secp256k1::Secp256k1PublicKey`). -/
structure Secp256k1PublicKey where
  key : String
deriving DecidableEq, Repr

/-- Modelled from the spec: the burnchain network "magic" identifier
(`stacks::burnchains::MagicBytes`), opaque to this unit. -/
structure MagicBytes where
  bytes : List Nat
deriving DecidableEq, Repr

/-- The `stacks::net::NeighborKey` record, with the fields the unit populates. -/
structure NeighborKey where
  peer_version : Nat
  network_id : Nat
  addrbytes : PeerAddress
  port : Nat
deriving DecidableEq, Repr

/-- The `stacks::net::Neighbor` record, with the fields the unit populates. -/
structure Neighbor where
  addr : NeighborKey
  public_key : Secp256k1PublicKey
  expire_block : Nat
  last_contact_time : Nat
  whitelisted : Int
  blacklisted : Int
  asn : Nat
  org : Nat
  in_degree : Nat
  out_degree : Nat
deriving DecidableEq, Repr

/-- Modelled from the spec: the nested read-only-call-limit sub-record of the
connection tuning options (write length/count, read length/count, runtime). -/
structure ReadOnlyCallLimit where
  write_length : Nat
  write_count : Nat
  read_length : Nat
  read_count : Nat
  runtime : Nat
deriving DecidableEq, Repr

/-- Modelled from the spec: the connection tuning record
(`stacks::net::connection::ConnectionOptions`), restricted to the fields this
unit reads or writes (the spec's §3 `ConnectionTuning` field list). -/
structure ConnectionOptions where
  inbox_maxlen : Nat
  outbox_maxlen : Nat
  timeout : Nat
  idle_timeout : Nat
  heartbeat : Nat
  private_key_lifetime : Nat
  num_neighbors : Nat
  num_clients : Nat
  soft_num_neighbors : Nat
  soft_num_clients : Nat
  max_neighbors_per_host : Nat
  max_clients_per_host : Nat
  soft_max_neighbors_per_host : Nat
  soft_max_neighbors_per_org : Nat
  soft_max_clients_per_host : Nat
  walk_interval : Nat
  dns_timeout : Nat
  max_inflight_blocks : Nat
  maximum_call_argument_size : Nat
  read_only_call_limit : ReadOnlyCallLimit
deriving DecidableEq, Repr

/-- Modelled from the spec: the external collaborators of the unit — parsing
and cryptographic functions and compiled constants from the `stacks` crate,
plus the derived `ConnectionOptions::default()` baseline. All are opaque at
the interface boundary; theorems quantify over this record. -/
structure Externals where
  hex_bytes : String → Option (List Nat)
  parse_standard_principal : String → Option StandardPrincipalData
  clarity_name : String → Option ClarityName
  qualified_contract_identifier_parse : String → Option QualifiedContractIdentifier
  secp256k1_public_key_from_hex : String → Option Secp256k1PublicKey
  socket_addr_parse : String → Option SocketAddr
  peer_address_from_socketaddr : SocketAddr → PeerAddress
  peer_version : Nat
  network_id_testnet : Nat
  first_block_mainnet : Nat
  blockstack_magic_mainnet : MagicBytes
  connection_options_default : ConnectionOptions

/-- The 8 random bytes drawn by `NodeConfig::default` from the process-wide
random source; resolution is parameterised by them so the derivation is
explicit and deterministic. -/
structure RandBuf where
  b0 : Nat
  b1 : Nat
  b2 : Nat
  b3 : Nat
  b4 : Nat
  b5 : Nat
  b6 : Nat
  b7 : Nat
deriving DecidableEq, Repr

/-- The abort sites of the resolver; each constructor is one Rust panic site
(`expect`/`unwrap`/explicit abort). The mode check carries its message. -/
inductive ResolveError where
  | badSeed
  | badBootstrap
  | unsupportedMode (msg : String)
  | heliumMissingKey
  | badBalanceAddress
  | badEventKey
deriving DecidableEq, Repr

/-- The resolved node identity (`NodeConfig`). -/
structure NodeConfig where
  name : String
  seed : List Nat
  working_dir : String
  rpc_bind : String
  p2p_bind : String
  bootstrap_node : Option Neighbor
deriving DecidableEq, Repr

/-- The resolved burnchain settings (`BurnchainConfig`). -/
structure BurnchainConfig where
  chain : String
  mode : String
  commit_anchor_block_within : Nat
  burn_fee_cap : Nat
  peer_host : String
  peer_port : Nat
  rpc_port : Nat
  rpc_ssl : Bool
  username : Option String
  password : Option String
  timeout : Nat
  spv_headers_path : String
  first_block : Nat
  magic_bytes : MagicBytes
  local_mining_public_key : Option String
  burnchain_op_tx_fee : Nat
deriving DecidableEq, Repr

/-- The tagged variant produced by the event-key grammar (`EventKeyType`). -/
inductive EventKeyType where
  | SmartContractEvent (data : QualifiedContractIdentifier × String)
  | AssetEvent (data : AssetIdentifier)
  | STXEvent
  | AnyEvent
deriving DecidableEq, Repr

/-- The resolved observer entry (`EventObserverConfig`). -/
structure EventObserverConfig where
  endpoint : String
  events_keys : List EventKeyType
deriving DecidableEq, Repr

/-- The resolved initial-balance entry (`InitialBalance`). -/
structure InitialBalance where
  address : PrincipalData
  amount : Nat
deriving DecidableEq, Repr

/-- The fully resolved configuration (`Config`). -/
structure Config where
  burnchain : BurnchainConfig
  node : NodeConfig
  initial_balances : List InitialBalance
  events_observers : List EventObserverConfig
  connection_options : ConnectionOptions
deriving DecidableEq, Repr

/-- The all-optional burnchain section of the parsed document
(`BurnchainConfigFile`); `magic_bytes` is accepted by the input schema. -/
structure BurnchainConfigFile where
  chain : Option String
  burn_fee_cap : Option Nat
  mode : Option String
  block_time : Option Nat
  commit_anchor_block_within : Option Nat
  peer_host : Option String
  peer_port : Option Nat
  rpc_port : Option Nat
  rpc_ssl : Option Bool
  username : Option String
  password : Option String
  timeout : Option Nat
  spv_headers_path : Option String
  first_block : Option Nat
  magic_bytes : Option String
  local_mining_public_key : Option String
  burnchain_op_tx_fee : Option Nat
deriving DecidableEq, Repr

/-- The all-optional node section of the parsed document (`NodeConfigFile`). -/
structure NodeConfigFile where
  name : Option String
  seed : Option String
  working_dir : Option String
  rpc_bind : Option String
  p2p_bind : Option String
  bootstrap_node : Option String
deriving DecidableEq, Repr

/-- One raw initial-balance entry (`InitialBalanceFile`). -/
structure InitialBalanceFile where
  address : String
  amount : Nat
deriving DecidableEq, Repr

/-- One raw observer entry (`EventObserverConfigFile`). -/
structure EventObserverConfigFile where
  endpoint : String
  events_keys : List String
deriving DecidableEq, Repr

/-- The all-optional connection-tuning section (`ConnectionOptionsFile`). -/
structure ConnectionOptionsFile where
  inbox_maxlen : Option Nat
  outbox_maxlen : Option Nat
  timeout : Option Nat
  idle_timeout : Option Nat
  heartbeat : Option Nat
  private_key_lifetime : Option Nat
  num_neighbors : Option Nat
  num_clients : Option Nat
  soft_num_neighbors : Option Nat
  soft_num_clients : Option Nat
  max_neighbors_per_host : Option Nat
  max_clients_per_host : Option Nat
  soft_max_neighbors_per_host : Option Nat
  soft_max_neighbors_per_org : Option Nat
  soft_max_clients_per_host : Option Nat
  walk_interval : Option Nat
  dns_timeout : Option Nat
  max_inflight_blocks : Option Nat
  read_only_call_limit_write_length : Option Nat
  read_only_call_limit_read_length : Option Nat
  read_only_call_limit_write_count : Option Nat
  read_only_call_limit_read_count : Option Nat
  read_only_call_limit_runtime : Option Nat
  maximum_call_argument_size : Option Nat
deriving DecidableEq, Repr

/-- The parsed document, all top-level sections optional (`ConfigFile`). -/
structure ConfigFile where
  burnchain : Option BurnchainConfigFile
  node : Option NodeConfigFile
  mstx_balance : Option (List InitialBalanceFile)
  events_observer : Option (List EventObserverConfigFile)
  connection_options : Option ConnectionOptionsFile
deriving DecidableEq, Repr

/-- The baseline tuning record `HELIUM_DEFAULT_CONNECTION_OPTIONS`; the
fields not listed in the source literal (the read-only call limit and the
maximum call-argument size) come from the derived
`ConnectionOptions::default()` baseline. -/
def helium_default_connection_options (ext : Externals) : ConnectionOptions :=
  { ext.connection_options_default with
    inbox_maxlen := 100
    outbox_maxlen := 100
    timeout := 5000
    idle_timeout := 15
    heartbeat := 60000
    private_key_lifetime := 9223372036854775807
    num_neighbors := 4
    num_clients := 1000
    soft_num_neighbors := 4
    soft_num_clients := 1000
    max_neighbors_per_host := 10
    max_clients_per_host := 1000
    soft_max_neighbors_per_host := 10
    soft_max_neighbors_per_org := 100
    soft_max_clients_per_host := 1000
    walk_interval := 9223372036854775807
    dns_timeout := 15000
    max_inflight_blocks := 6 }

/-- The RPC port derived by `NodeConfig::default`: bytes 0..2 of the random
buffer read as a big-endian unsigned 16-bit integer, plus 1024, saturating. -/
def NodeConfig.default_rpc_port (buf : RandBuf) : Nat :=
  saturating_add_u16 (u16_from_be_bytes buf.b0 buf.b1) 1024

/-- The p2p port derived by `NodeConfig::default`: bytes 2..4 of the random
buffer read as a big-endian unsigned 16-bit integer, plus 1024, saturating. -/
def NodeConfig.default_p2p_port (buf : RandBuf) : Nat :=
  saturating_add_u16 (u16_from_be_bytes buf.b2 buf.b3) 1024

/-- The default node identity `NodeConfig::default`, parameterised by the 8 random bytes it draws. -/
def NodeConfig.default (buf : RandBuf) : NodeConfig :=
  let testnet_id :=
    "stacks-testnet-" ++
      to_hex [buf.b0, buf.b1, buf.b2, buf.b3, buf.b4, buf.b5, buf.b6, buf.b7]
  { name := "helium-node"
    seed := List.replicate 32 0
    working_dir := "/tmp/" ++ testnet_id
    rpc_bind := "127.0.0.1:" ++ toString (NodeConfig.default_rpc_port buf)
    p2p_bind := "127.0.0.1:" ++ toString (NodeConfig.default_p2p_port buf)
    bootstrap_node := none }

/-- Path template `NodeConfig::get_burnchain_path`. -/
def NodeConfig.get_burnchain_path (self : NodeConfig) : String :=
  self.working_dir ++ "/burnchain"

/-- Path template `NodeConfig::get_default_spv_headers_path`. -/
def NodeConfig.get_default_spv_headers_path (self : NodeConfig) : String :=
  self.get_burnchain_path ++ "/spv-headers.dat"

/-- The default burnchain settings `BurnchainConfig::default`. -/
def BurnchainConfig.default (ext : Externals) : BurnchainConfig :=
  { chain := "bitcoin"
    mode := "mocknet"
    burn_fee_cap := 10000
    commit_anchor_block_within := 5000
    peer_host := "127.0.0.1"
    peer_port := 8333
    rpc_port := 8332
    rpc_ssl := false
    username := none
    password := none
    timeout := 30
    spv_headers_path := "./spv-headers.dat"
    first_block := ext.first_block_mainnet
    magic_bytes := ext.blockstack_magic_mainnet
    local_mining_public_key := none
    burnchain_op_tx_fee := 1000 }

/-- Bootstrap handling `NodeConfig::set_bootstrap_node`: splits the descriptor on `"@"`; on
exactly two parts it parses the socket address and the public key (either
failure is a panic, `.error .badBootstrap`) and installs the neighbor with
zeroed bookkeeping counters and expiry block 99999; any other split shape
falls through the wildcard match arm and leaves the node untouched. -/
def NodeConfig.set_bootstrap_node (ext : Externals) (self : NodeConfig)
    (bootstrap_node : Option String) : Except ResolveError NodeConfig :=
  match bootstrap_node with
  | none => .ok self
  | some s =>
    match rustSplit s "@" with
    | [public_key, peer_addr] =>
      match ext.socket_addr_parse peer_addr with
      | none => .error .badBootstrap
      | some sock_addr =>
        match ext.secp256k1_public_key_from_hex public_key with
        | none => .error .badBootstrap
        | some pk =>
          let neighbor : Neighbor :=
            { addr := { peer_version := ext.peer_version
                        network_id := ext.network_id_testnet
                        addrbytes := ext.peer_address_from_socketaddr sock_addr
                        port := sock_addr.port }
              public_key := pk
              expire_block := 99999
              last_contact_time := 0
              whitelisted := 0
              blacklisted := 0
              asn := 0
              org := 0
              in_degree := 0
              out_degree := 0 }
          .ok { self with bootstrap_node := some neighbor }
    | _ => .ok self

/-- The node-section resolution step of `Config::from_config_file`. -/
def resolveNode (ext : Externals) (buf : RandBuf) (nodeFile : Option NodeConfigFile) :
    Except ResolveError NodeConfig :=
  let default_node_config := NodeConfig.default buf
  match nodeFile with
  | none => .ok default_node_config
  | some node =>
    match (match node.seed with
           | some s =>
             match ext.hex_bytes s with
             | some bs => Except.ok bs
             | none => Except.error ResolveError.badSeed
           | none => Except.ok default_node_config.seed) with
    | .error e => .error e
    | .ok seed =>
      let node_config : NodeConfig :=
        { name := node.name.getD default_node_config.name
          seed := seed
          working_dir := node.working_dir.getD default_node_config.working_dir
          rpc_bind := node.rpc_bind.getD default_node_config.rpc_bind
          p2p_bind := node.p2p_bind.getD default_node_config.p2p_bind
          bootstrap_node := none }
      NodeConfig.set_bootstrap_node ext node_config node.bootstrap_node

/-- The burnchain-section resolution step of `Config::from_config_file`:
field-wise default-or-override; `spv_headers_path` defaults from the
already-resolved node; the resolved `magic_bytes` is taken from the default
record unconditionally. -/
def resolveBurnchain (ext : Externals) (node : NodeConfig)
    (burnchainFile : Option BurnchainConfigFile) : BurnchainConfig :=
  let d := BurnchainConfig.default ext
  match burnchainFile with
  | none => d
  | some b =>
    { chain := b.chain.getD d.chain
      mode := b.mode.getD d.mode
      burn_fee_cap := b.burn_fee_cap.getD d.burn_fee_cap
      commit_anchor_block_within := b.commit_anchor_block_within.getD d.commit_anchor_block_within
      peer_host := b.peer_host.getD d.peer_host
      peer_port := b.peer_port.getD d.peer_port
      rpc_port := b.rpc_port.getD d.rpc_port
      rpc_ssl := b.rpc_ssl.getD d.rpc_ssl
      username := b.username
      password := b.password
      timeout := b.timeout.getD d.timeout
      spv_headers_path := b.spv_headers_path.getD node.get_default_spv_headers_path
      first_block := b.first_block.getD d.first_block
      magic_bytes := d.magic_bytes
      local_mining_public_key := b.local_mining_public_key
      burnchain_op_tx_fee := b.burnchain_op_tx_fee.getD d.burnchain_op_tx_fee }

/-- The fixed list of supported burnchain modes. -/
def supported_modes : List String := ["mocknet", "helium", "neon", "neon-god"]

/-- The abort message of the mode check, with the supported set joined by
`", "` as in the source's format string. -/
def supported_modes_message : String :=
  "Setting burnchain.network not supported (should be: " ++
    String.intercalate ", " supported_modes ++ ")"

/-- The initial-balance resolution loop: each address is parsed as a standard
principal (failure is a panic, aborting with no partial list); entries are
collected in input order. -/
def resolveBalancesList (ext : Externals) :
    List InitialBalanceFile → Except ResolveError (List InitialBalance)
  | [] => .ok []
  | b :: rest =>
    match ext.parse_standard_principal b.address with
    | none => .error .badBalanceAddress
    | some p =>
      match resolveBalancesList ext rest with
      | .error e => .error e
      | .ok l => .ok ({ address := .Standard p, amount := b.amount } :: l)

/-- The initial-balance resolution step of `Config::from_config_file`. -/
def resolveBalances (ext : Externals) (balances : Option (List InitialBalanceFile)) :
    Except ResolveError (List InitialBalance) :=
  match balances with
  | some bs => resolveBalancesList ext bs
  | none => .ok []

/-- The event-key grammar `EventKeyType::from_string`, in source order:
the literal `"*"`, the literal `"stx"`, then split on `"::"` — one segment
is the three-dot-part asset form, two segments is the contract-event form
with the second segment unvalidated, anything else is no match. -/
def EventKeyType.from_string (ext : Externals) (raw_key : String) : Option EventKeyType :=
  if raw_key = "*" then some .AnyEvent
  else if raw_key = "stx" then some .STXEvent
  else
    match rustSplit raw_key "::" with
    | [seg] =>
      match rustSplit seg "." with
      | [a, n, an] =>
        match ext.parse_standard_principal a, ext.clarity_name n, ext.clarity_name an with
        | some address, some name, some asset_name =>
          some (.AssetEvent
            { contract_identifier := { issuer := address, name := name }
              asset_name := asset_name })
        | _, _, _ => none
      | _ => none
    | [c1, c2] =>
      match ext.qualified_contract_identifier_parse c1 with
      | some contract_identifier => some (.SmartContractEvent (contract_identifier, c2))
      | none => none
    | _ => none

/-- The per-observer subscription-key loop: every key string must parse under
the event-key grammar (no match is a panic). -/
def resolveKeysList (ext : Externals) :
    List String → Except ResolveError (List EventKeyType)
  | [] => .ok []
  | e :: rest =>
    match EventKeyType.from_string ext e with
    | none => .error .badEventKey
    | some k =>
      match resolveKeysList ext rest with
      | .error err => .error err
      | .ok l => .ok (k :: l)

/-- The observer resolution loop, preserving document order. -/
def resolveObserversList (ext : Externals) :
    List EventObserverConfigFile → Except ResolveError (List EventObserverConfig)
  | [] => .ok []
  | o :: rest =>
    match resolveKeysList ext o.events_keys with
    | .error e => .error e
    | .ok keys =>
      match resolveObserversList ext rest with
      | .error e => .error e
      | .ok l => .ok ({ endpoint := o.endpoint, events_keys := keys } :: l)

/-- The observer resolution step of `Config::from_config_file`. -/
def resolveObservers (ext : Externals) (raw : Option (List EventObserverConfigFile)) :
    Except ResolveError (List EventObserverConfig) :=
  match raw with
  | some raw_observers => resolveObserversList ext raw_observers
  | none => .ok []

/-- The connection-tuning merge of `Config::from_config_file`: absent section
yields the baseline unchanged; otherwise a field-wise right-biased merge
against `HELIUM_DEFAULT_CONNECTION_OPTIONS`, with the nested read-only call
limit's five fields merged independently against the baseline's sub-record. -/
def resolveConnectionOptions (ext : Externals)
    (optsFile : Option ConnectionOptionsFile) : ConnectionOptions :=
  let hd := helium_default_connection_options ext
  match optsFile with
  | none => hd
  | some opts =>
    let rocl0 := hd.read_only_call_limit
    let read_only_call_limit : ReadOnlyCallLimit :=
      { write_length := opts.read_only_call_limit_write_length.getD rocl0.write_length
        write_count := opts.read_only_call_limit_write_count.getD rocl0.write_count
        read_length := opts.read_only_call_limit_read_length.getD rocl0.read_length
        read_count := opts.read_only_call_limit_read_count.getD rocl0.read_count
        runtime := opts.read_only_call_limit_runtime.getD rocl0.runtime }
    { read_only_call_limit := read_only_call_limit
      inbox_maxlen := opts.inbox_maxlen.getD hd.inbox_maxlen
      outbox_maxlen := opts.outbox_maxlen.getD hd.outbox_maxlen
      timeout := opts.timeout.getD hd.timeout
      idle_timeout := opts.idle_timeout.getD hd.idle_timeout
      heartbeat := opts.heartbeat.getD hd.heartbeat
      private_key_lifetime := opts.private_key_lifetime.getD hd.private_key_lifetime
      num_neighbors := opts.num_neighbors.getD hd.num_neighbors
      num_clients := opts.num_clients.getD hd.num_clients
      soft_num_neighbors := opts.soft_num_neighbors.getD hd.soft_num_neighbors
      soft_num_clients := opts.soft_num_clients.getD hd.soft_num_clients
      max_neighbors_per_host := opts.max_neighbors_per_host.getD hd.max_neighbors_per_host
      max_clients_per_host := opts.max_clients_per_host.getD hd.max_clients_per_host
      soft_max_neighbors_per_host := opts.soft_max_neighbors_per_host.getD hd.soft_max_neighbors_per_host
      soft_max_neighbors_per_org := opts.soft_max_neighbors_per_org.getD hd.soft_max_neighbors_per_org
      soft_max_clients_per_host := opts.soft_max_clients_per_host.getD hd.soft_max_clients_per_host
      walk_interval := opts.walk_interval.getD hd.walk_interval
      dns_timeout := opts.dns_timeout.getD hd.dns_timeout
      max_inflight_blocks := opts.max_inflight_blocks.getD hd.max_inflight_blocks
      maximum_call_argument_size := opts.maximum_call_argument_size.getD hd.maximum_call_argument_size }

/-- The resolver `Config::from_config_file`: node, then burnchain (which reads the
resolved node), then the mode and helium checks, then balances, observers,
the environment-variable observer (`env_observer` models the recognized
variable's value when set), and the connection-tuning merge. -/
def Config.from_config_file (ext : Externals) (buf : RandBuf)
    (env_observer : Option String) (config_file : ConfigFile) :
    Except ResolveError Config :=
  match resolveNode ext buf config_file.node with
  | .error e => .error e
  | .ok node =>
    let burnchain := resolveBurnchain ext node config_file.burnchain
    if supported_modes.contains burnchain.mode = false then
      .error (.unsupportedMode supported_modes_message)
    else if burnchain.mode = "helium" ∧ burnchain.local_mining_public_key = none then
      .error .heliumMissingKey
    else
      match resolveBalances ext config_file.mstx_balance with
      | .error e => .error e
      | .ok initial_balances =>
        match resolveObservers ext config_file.events_observer with
        | .error e => .error e
        | .ok doc_observers =>
          let events_observers :=
            match env_observer with
            | some val =>
              doc_observers ++
                [({ endpoint := val, events_keys := [EventKeyType.AnyEvent] } : EventObserverConfig)]
            | none => doc_observers
          let connection_options := resolveConnectionOptions ext config_file.connection_options
          .ok { burnchain := burnchain
                node := node
                initial_balances := initial_balances
                events_observers := events_observers
                connection_options := connection_options }

/-- The document with every top-level section absent. -/
def ConfigFile.empty : ConfigFile :=
  { burnchain := none, node := none, mstx_balance := none
    events_observer := none, connection_options := none }

/-- The burnchain mode a document resolves to (the section's `mode` when
present, else the default `"mocknet"`). -/
def resolvedMode (burnchainFile : Option BurnchainConfigFile) : String :=
  match burnchainFile with
  | some b => b.mode.getD "mocknet"
  | none => "mocknet"

/-- The local mining public key a document resolves to. -/
def resolvedMiningKey (burnchainFile : Option BurnchainConfigFile) : Option String :=
  match burnchainFile with
  | some b => b.local_mining_public_key
  | none => none

/-- The all-absent burnchain section. -/
def BurnchainConfigFile.empty : BurnchainConfigFile :=
  { chain := none, burn_fee_cap := none, mode := none, block_time := none
    commit_anchor_block_within := none, peer_host := none, peer_port := none
    rpc_port := none, rpc_ssl := none, username := none, password := none
    timeout := none, spv_headers_path := none, first_block := none
    magic_bytes := none, local_mining_public_key := none, burnchain_op_tx_fee := none }

/-- The all-absent node section. -/
def NodeConfigFile.empty : NodeConfigFile :=
  { name := none, seed := none, working_dir := none, rpc_bind := none
    p2p_bind := none, bootstrap_node := none }

/-- The all-absent connection-tuning section. -/
def ConnectionOptionsFile.empty : ConnectionOptionsFile :=
  { inbox_maxlen := none, outbox_maxlen := none, timeout := none
    idle_timeout := none, heartbeat := none, private_key_lifetime := none
    num_neighbors := none, num_clients := none, soft_num_neighbors := none
    soft_num_clients := none, max_neighbors_per_host := none
    max_clients_per_host := none, soft_max_neighbors_per_host := none
    soft_max_neighbors_per_org := none, soft_max_clients_per_host := none
    walk_interval := none, dns_timeout := none, max_inflight_blocks := none
    read_only_call_limit_write_length := none, read_only_call_limit_read_length := none
    read_only_call_limit_write_count := none, read_only_call_limit_read_count := none
    read_only_call_limit_runtime := none, maximum_call_argument_size := none }

/-- A concrete instantiation of the abstract external collaborators, used to
evaluate the universally-quantified theorems at concrete inputs. -/
def extDemo : Externals :=
  { hex_bytes := fun s => if s = "00ff" then some [0, 255] else none
    parse_standard_principal := fun s =>
      if s = "SPDEMO" then some { version := 22, bytes := [1, 2] } else none
    clarity_name := fun s => if s = "" then none else some { name := s }
    qualified_contract_identifier_parse := fun s =>
      if s = "SPDEMO.contract" then
        some { issuer := { version := 22, bytes := [1, 2] }, name := { name := "contract" } }
      else none
    secp256k1_public_key_from_hex := fun s => if s = "aa" then some { key := "aa" } else none
    socket_addr_parse := fun s =>
      if s = "1.2.3.4:20443" then some { host := "1.2.3.4", port := 20443 } else none
    peer_address_from_socketaddr := fun sa => { bytes := [sa.port] }
    peer_version := 385875968
    network_id_testnet := 2147483648
    first_block_mainnet := 500000
    blockstack_magic_mainnet := { bytes := [105, 100] }
    connection_options_default :=
      { inbox_maxlen := 0, outbox_maxlen := 0, timeout := 0, idle_timeout := 0
        heartbeat := 0, private_key_lifetime := 0, num_neighbors := 0
        num_clients := 0, soft_num_neighbors := 0, soft_num_clients := 0
        max_neighbors_per_host := 0, max_clients_per_host := 0
        soft_max_neighbors_per_host := 0, soft_max_neighbors_per_org := 0
        soft_max_clients_per_host := 0, walk_interval := 0, dns_timeout := 0
        max_inflight_blocks := 0, maximum_call_argument_size := 0
        read_only_call_limit :=
          { write_length := 0, write_count := 0, read_length := 0
            read_count := 0, runtime := 0 } } }

/-- A concrete random buffer for evaluating theorems at concrete inputs. -/
def bufDemo : RandBuf :=
  { b0 := 0, b1 := 0, b2 := 0, b3 := 0, b4 := 0, b5 := 0, b6 := 0, b7 := 0 }

/-- A document whose node section carries a bootstrap descriptor with no
`"@"` separator (and nothing else set). -/
def cfBootstrapIgnored : ConfigFile :=
  { ConfigFile.empty with node := some { NodeConfigFile.empty with bootstrap_node := some "abc" } }

/-- A document whose burnchain section sets an unsupported mode. -/
def cfModeBad : ConfigFile :=
  { ConfigFile.empty with burnchain := some { BurnchainConfigFile.empty with mode := some "testnet" } }

/-- A document whose burnchain section selects helium with no mining key. -/
def cfHeliumNoKey : ConfigFile :=
  { ConfigFile.empty with burnchain := some { BurnchainConfigFile.empty with mode := some "helium" } }

/-- A document whose burnchain section selects neon with no mining key. -/
def cfNeonNoKey : ConfigFile :=
  { ConfigFile.empty with burnchain := some { BurnchainConfigFile.empty with mode := some "neon" } }

/-- A document whose burnchain section supplies a `magic_bytes` string. -/
def cfMagicDemo : ConfigFile :=
  { ConfigFile.empty with
    burnchain := some { BurnchainConfigFile.empty with magic_bytes := some "ff" } }

theorem set_bootstrap_node_error_shape (ext : Externals) (self : NodeConfig)
    (bn : Option String) (e : ResolveError)
    (h : NodeConfig.set_bootstrap_node ext self bn = .error e) : e = .badBootstrap := by
  cases bn with
  | none => simp [NodeConfig.set_bootstrap_node] at h
  | some s =>
    rcases hs : rustSplit s "@" with _ | ⟨pk, _ | ⟨pa, _ | rest⟩⟩ <;>
        simp only [NodeConfig.set_bootstrap_node, hs] at h <;>
      try exact Except.noConfusion h
    cases hsock : ext.socket_addr_parse pa with
    | none =>
      rw [hsock] at h
      simp at h
      exact h.symm
    | some sa =>
      rw [hsock] at h
      cases hk : ext.secp256k1_public_key_from_hex pk with
      | none =>
        rw [hk] at h
        simp at h
        exact h.symm
      | some k =>
        rw [hk] at h
        simp at h

theorem resolveNode_error_shape (ext : Externals) (buf : RandBuf)
    (nf : Option NodeConfigFile) (e : ResolveError)
    (h : resolveNode ext buf nf = .error e) :
    e = .badSeed ∨ e = .badBootstrap := by
  cases nf with
  | none => simp [resolveNode] at h
  | some node =>
    simp only [resolveNode] at h
    cases hs : node.seed with
    | none =>
      rw [hs] at h
      simp only [] at h
      exact Or.inr (set_bootstrap_node_error_shape _ _ _ _ h)
    | some s =>
      rw [hs] at h
      simp only [] at h
      cases hb : ext.hex_bytes s with
      | none =>
        rw [hb] at h
        simp at h
        exact Or.inl h.symm
      | some bs =>
        rw [hb] at h
        simp only [] at h
        exact Or.inr (set_bootstrap_node_error_shape _ _ _ _ h)

theorem resolveBalancesList_error_shape (ext : Externals)
    (bs : List InitialBalanceFile) (e : ResolveError)
    (h : resolveBalancesList ext bs = .error e) : e = .badBalanceAddress := by
  induction bs with
  | nil => simp [resolveBalancesList] at h
  | cons b rest ih =>
    unfold resolveBalancesList at h
    cases hp : ext.parse_standard_principal b.address with
    | none => rw [hp] at h; simp at h; exact h.symm
    | some p =>
      rw [hp] at h
      cases hr : resolveBalancesList ext rest with
      | error e2 => rw [hr] at h; simp at h; subst h; exact ih hr
      | ok l => rw [hr] at h; simp at h

theorem resolveBalances_error_shape (ext : Externals)
    (bs : Option (List InitialBalanceFile)) (e : ResolveError)
    (h : resolveBalances ext bs = .error e) : e = .badBalanceAddress := by
  cases bs with
  | none => simp [resolveBalances] at h
  | some l => exact resolveBalancesList_error_shape ext l e h

theorem resolveKeysList_error_shape (ext : Externals)
    (ks : List String) (e : ResolveError)
    (h : resolveKeysList ext ks = .error e) : e = .badEventKey := by
  induction ks with
  | nil => simp [resolveKeysList] at h
  | cons k rest ih =>
    unfold resolveKeysList at h
    cases hk : EventKeyType.from_string ext k with
    | none => rw [hk] at h; simp at h; exact h.symm
    | some key =>
      rw [hk] at h
      cases hr : resolveKeysList ext rest with
      | error e2 => rw [hr] at h; simp at h; subst h; exact ih hr
      | ok l => rw [hr] at h; simp at h

theorem resolveObserversList_error_shape (ext : Externals)
    (os : List EventObserverConfigFile) (e : ResolveError)
    (h : resolveObserversList ext os = .error e) : e = .badEventKey := by
  induction os with
  | nil => simp [resolveObserversList] at h
  | cons o rest ih =>
    unfold resolveObserversList at h
    cases hk : resolveKeysList ext o.events_keys with
    | error e2 =>
      rw [hk] at h; simp at h; subst h
      exact resolveKeysList_error_shape ext o.events_keys _ hk
    | ok keys =>
      rw [hk] at h
      cases hr : resolveObserversList ext rest with
      | error e2 => rw [hr] at h; simp at h; subst h; exact ih hr
      | ok l => rw [hr] at h; simp at h

theorem resolveObservers_error_shape (ext : Externals)
    (os : Option (List EventObserverConfigFile)) (e : ResolveError)
    (h : resolveObservers ext os = .error e) : e = .badEventKey := by
  cases os with
  | none => simp [resolveObservers] at h
  | some l => exact resolveObserversList_error_shape ext l e h

theorem resolveBurnchain_mode (ext : Externals) (node : NodeConfig)
    (bf : Option BurnchainConfigFile) :
    (resolveBurnchain ext node bf).mode = resolvedMode bf := by
  cases bf <;> rfl

theorem resolveBurnchain_key (ext : Externals) (node : NodeConfig)
    (bf : Option BurnchainConfigFile) :
    (resolveBurnchain ext node bf).local_mining_public_key = resolvedMiningKey bf := by
  cases bf <;> rfl

theorem resolveBurnchain_magic (ext : Externals) (node : NodeConfig)
    (bf : Option BurnchainConfigFile) :
    (resolveBurnchain ext node bf).magic_bytes = ext.blockstack_magic_mainnet := by
  cases bf <;> rfl

/-- C1 (amended): a bootstrap descriptor that splits on `"@"` into exactly
two parts is fatal when the right part fails to parse as a socket address or
the left part fails to parse as a public key, and when both parse it yields a
peer descriptor with zeroed contact/trust/degree counters and far-future
expiry 99999; a descriptor that does not split into exactly two parts is
silently ignored (no abort, bootstrap peer left unset), and an absent
descriptor leaves the node unchanged. -/
theorem c1_bootstrap_descriptor (ext : Externals) (self : NodeConfig) (s : String) :
    ((rustSplit s "@").length ≠ 2 →
      NodeConfig.set_bootstrap_node ext self (some s) = .ok self) ∧
    (∀ pk pa, rustSplit s "@" = [pk, pa] →
      (ext.socket_addr_parse pa = none →
        NodeConfig.set_bootstrap_node ext self (some s) = .error .badBootstrap) ∧
      (∀ sa, ext.socket_addr_parse pa = some sa →
        ext.secp256k1_public_key_from_hex pk = none →
        NodeConfig.set_bootstrap_node ext self (some s) = .error .badBootstrap) ∧
      (∀ sa k, ext.socket_addr_parse pa = some sa →
        ext.secp256k1_public_key_from_hex pk = some k →
        NodeConfig.set_bootstrap_node ext self (some s) = .ok { self with
          bootstrap_node := some
            { addr := { peer_version := ext.peer_version
                        network_id := ext.network_id_testnet
                        addrbytes := ext.peer_address_from_socketaddr sa
                        port := sa.port }
              public_key := k
              expire_block := 99999
              last_contact_time := 0
              whitelisted := 0
              blacklisted := 0
              asn := 0
              org := 0
              in_degree := 0
              out_degree := 0 } })) ∧
    (NodeConfig.set_bootstrap_node ext self none = .ok self) := by
  refine ⟨?_, ?_, rfl⟩
  · intro hlen
    rcases hsp : rustSplit s "@" with _ | ⟨x, _ | ⟨y, _ | ⟨z, t⟩⟩⟩
    · simp only [NodeConfig.set_bootstrap_node, hsp]
    · simp only [NodeConfig.set_bootstrap_node, hsp]
    · rw [hsp] at hlen; simp at hlen
    · simp only [NodeConfig.set_bootstrap_node, hsp]
  · intro pk pa hsp
    refine ⟨?_, ?_, ?_⟩
    · intro hsock
      simp only [NodeConfig.set_bootstrap_node, hsp, hsock]
    · intro sa hsock hk
      simp only [NodeConfig.set_bootstrap_node, hsp, hsock, hk]
    · intro sa k hsock hk
      simp only [NodeConfig.set_bootstrap_node, hsp, hsock, hk]

/-- C1 (witness): a concrete well-formed two-part descriptor resolves to the
neighbor with zeroed counters and expiry 99999. -/
theorem c1_bootstrap_descriptor_witness :
    rustSplit "aa@1.2.3.4:20443" "@" = ["aa", "1.2.3.4:20443"] ∧
    extDemo.socket_addr_parse "1.2.3.4:20443" = some { host := "1.2.3.4", port := 20443 } ∧
    extDemo.secp256k1_public_key_from_hex "aa" = some { key := "aa" } ∧
    NodeConfig.set_bootstrap_node extDemo (NodeConfig.default bufDemo)
        (some "aa@1.2.3.4:20443") =
      .ok { NodeConfig.default bufDemo with bootstrap_node := some ({
           addr := { peer_version := extDemo.peer_version
                     network_id := extDemo.network_id_testnet
                     addrbytes := extDemo.peer_address_from_socketaddr { host := "1.2.3.4", port := 20443 }
                     port := 20443 }
           public_key := { key := "aa" }
           expire_block := 99999
           last_contact_time := 0
           whitelisted := 0
           blacklisted := 0
           asn := 0
           org := 0
           in_degree := 0
           out_degree := 0 } : Neighbor) } :=
  ⟨by decide, by decide, by decide,
   ((c1_bootstrap_descriptor extDemo (NodeConfig.default bufDemo)
      "aa@1.2.3.4:20443").2.1 "aa" "1.2.3.4:20443" (by decide)).2.2
      { host := "1.2.3.4", port := 20443 } { key := "aa" } (by decide) (by decide)⟩

/-- C1 (counterexample): the claim says a descriptor that does not split on
`"@"` into exactly two parts makes resolution fatal; on the concrete
document carrying the one-part descriptor `"abc"` resolution succeeds, with
the bootstrap peer simply left unset. -/
theorem c1_counterexample :
    cfBootstrapIgnored.node =
      some { NodeConfigFile.empty with bootstrap_node := some "abc" } ∧
    (rustSplit "abc" "@").length ≠ 2 ∧
    (Config.from_config_file extDemo bufDemo none cfBootstrapIgnored).isOk = true ∧
    (Config.from_config_file extDemo bufDemo none cfBootstrapIgnored).toOption.map
      (fun c => c.node.bootstrap_node) = some none := by
  refine ⟨rfl, by decide, by decide, by decide⟩

/-- C4: the event-key parser maps, in precedence order, the literal `"*"` to
AnyEvent and the literal `"stx"` to STXEvent; a non-literal string with one
`"::"` segment whose segment splits on `"."` into exactly three parts that
parse as (standard principal, identifier, identifier) to the AssetEvent over
the contract identifier (addr, contract name) and the asset name, and to no
match when the dot-part count or any sub-parse fails; a string with exactly
two `"::"` segments whose first parses as a qualified contract identifier to
SmartContractEvent with the unvalidated second segment as event name, and to
no match when that parse fails; three or more segments to no match; in
particular `"not.a.valid..key"` and `"a::b::c"` are no match. -/
theorem c4_event_key_grammar (ext : Externals) :
    (EventKeyType.from_string ext "*" = some .AnyEvent) ∧
    (EventKeyType.from_string ext "stx" = some .STXEvent) ∧
    (∀ s seg a n an addr nm anm, s ≠ "*" → s ≠ "stx" →
      rustSplit s "::" = [seg] → rustSplit seg "." = [a, n, an] →
      ext.parse_standard_principal a = some addr →
      ext.clarity_name n = some nm → ext.clarity_name an = some anm →
      EventKeyType.from_string ext s = some (.AssetEvent
        { contract_identifier := { issuer := addr, name := nm }, asset_name := anm })) ∧
    (∀ s seg, s ≠ "*" → s ≠ "stx" → rustSplit s "::" = [seg] →
      (rustSplit seg ".").length ≠ 3 → EventKeyType.from_string ext s = none) ∧
    (∀ s seg a n an, s ≠ "*" → s ≠ "stx" → rustSplit s "::" = [seg] →
      rustSplit seg "." = [a, n, an] →
      (ext.parse_standard_principal a = none ∨ ext.clarity_name n = none ∨
        ext.clarity_name an = none) →
      EventKeyType.from_string ext s = none) ∧
    (∀ s c1 c2 ci, s ≠ "*" → s ≠ "stx" → rustSplit s "::" = [c1, c2] →
      ext.qualified_contract_identifier_parse c1 = some ci →
      EventKeyType.from_string ext s = some (.SmartContractEvent (ci, c2))) ∧
    (∀ s c1 c2, s ≠ "*" → s ≠ "stx" → rustSplit s "::" = [c1, c2] →
      ext.qualified_contract_identifier_parse c1 = none →
      EventKeyType.from_string ext s = none) ∧
    (∀ s, s ≠ "*" → s ≠ "stx" → 3 ≤ (rustSplit s "::").length →
      EventKeyType.from_string ext s = none) ∧
    (EventKeyType.from_string ext "not.a.valid..key" = none) ∧
    (EventKeyType.from_string ext "a::b::c" = none) := by
  refine ⟨rfl, rfl, ?_, ?_, ?_, ?_, ?_, ?_, rfl, rfl⟩
  · intro s seg a n an addr nm anm h1 h2 h3 h4 h5 h6 h7
    simp only [EventKeyType.from_string, if_neg h1, if_neg h2, h3, h4, h5, h6, h7]
  · intro s seg h1 h2 h3 hlen
    rcases hd : rustSplit seg "." with _ | ⟨x, _ | ⟨y, _ | ⟨z, _ | ⟨w, t⟩⟩⟩⟩
    · simp only [EventKeyType.from_string, if_neg h1, if_neg h2, h3, hd]
    · simp only [EventKeyType.from_string, if_neg h1, if_neg h2, h3, hd]
    · simp only [EventKeyType.from_string, if_neg h1, if_neg h2, h3, hd]
    · rw [hd] at hlen; simp at hlen
    · simp only [EventKeyType.from_string, if_neg h1, if_neg h2, h3, hd]
  · intro s seg a n an h1 h2 h3 h4 hfail
    cases hp : ext.parse_standard_principal a with
    | none => simp only [EventKeyType.from_string, if_neg h1, if_neg h2, h3, h4, hp]
    | some addr =>
      cases hn : ext.clarity_name n with
      | none => simp only [EventKeyType.from_string, if_neg h1, if_neg h2, h3, h4, hp, hn]
      | some nm =>
        cases ha : ext.clarity_name an with
        | none =>
          simp only [EventKeyType.from_string, if_neg h1, if_neg h2, h3, h4, hp, hn, ha]
        | some anm =>
          rcases hfail with hf | hf | hf
          · rw [hp] at hf; exact Option.noConfusion hf
          · rw [hn] at hf; exact Option.noConfusion hf
          · rw [ha] at hf; exact Option.noConfusion hf
  · intro s c1 c2 ci h1 h2 h3 h4
    simp only [EventKeyType.from_string, if_neg h1, if_neg h2, h3, h4]
  · intro s c1 c2 h1 h2 h3 h4
    simp only [EventKeyType.from_string, if_neg h1, if_neg h2, h3, h4]
  · intro s h1 h2 hlen
    rcases hsp : rustSplit s "::" with _ | ⟨x, _ | ⟨y, _ | ⟨z, t⟩⟩⟩
    · rw [hsp] at hlen; simp at hlen
    · rw [hsp] at hlen; simp at hlen
    · rw [hsp] at hlen; simp at hlen
    · simp only [EventKeyType.from_string, if_neg h1, if_neg h2, hsp]

/-- C4 (witness): concrete asset-event and contract-event keys parse to the
claimed variants under a concrete instantiation of the sub-parsers. -/
theorem c4_event_key_grammar_witness :
    ("SPDEMO.contract.asset" : String) ≠ "*" ∧
    rustSplit "SPDEMO.contract.asset" "::" = ["SPDEMO.contract.asset"] ∧
    rustSplit "SPDEMO.contract.asset" "." = ["SPDEMO", "contract", "asset"] ∧
    EventKeyType.from_string extDemo "SPDEMO.contract.asset" =
      some (.AssetEvent
        { contract_identifier :=
            { issuer := { version := 22, bytes := [1, 2] }, name := { name := "contract" } }
          asset_name := { name := "asset" } }) ∧
    rustSplit "SPDEMO.contract::transfer" "::" = ["SPDEMO.contract", "transfer"] ∧
    EventKeyType.from_string extDemo "SPDEMO.contract::transfer" =
      some (.SmartContractEvent
        ({ issuer := { version := 22, bytes := [1, 2] }, name := { name := "contract" } },
          "transfer")) :=
  ⟨by decide, by decide, by decide,
   (c4_event_key_grammar extDemo).2.2.1 "SPDEMO.contract.asset" "SPDEMO.contract.asset"
     "SPDEMO" "contract" "asset" { version := 22, bytes := [1, 2] }
     { name := "contract" } { name := "asset" }
     (by decide) (by decide) (by decide) (by decide) (by decide) (by decide) (by decide),
   by decide,
   (c4_event_key_grammar extDemo).2.2.2.2.2.1 "SPDEMO.contract::transfer"
     "SPDEMO.contract" "transfer"
     { issuer := { version := 22, bytes := [1, 2] }, name := { name := "contract" } }
     (by decide) (by decide) (by decide) (by decide)⟩

/-- C5: resolving the empty document yields a config whose burnchain mode is
`"mocknet"`, whose chain is `"bitcoin"`, and whose node seed is the fixed
32-byte all-zero vector, for every environment state and random buffer. -/
theorem c5_empty_document_defaults (ext : Externals) (buf : RandBuf) (env : Option String) :
    ∃ c, Config.from_config_file ext buf env ConfigFile.empty = .ok c ∧
      c.burnchain.mode = "mocknet" ∧ c.burnchain.chain = "bitcoin" ∧
      c.node.seed = List.replicate 32 0 := by
  cases env <;> exact ⟨_, rfl, rfl, rfl, rfl⟩

/-- C6: a connection-tuning section that sets only `heartbeat` resolves to
the default tuning record with only `heartbeat` replaced — every other
field, including the whole nested read-only-call-limit sub-record, is the
default's; and an absent section resolves to the default record unchanged. -/
theorem c6_heartbeat_only_merge (ext : Externals) (hb : Nat) :
    resolveConnectionOptions ext none = helium_default_connection_options ext ∧
    resolveConnectionOptions ext
        (some { ConnectionOptionsFile.empty with heartbeat := some hb }) =
      { helium_default_connection_options ext with heartbeat := hb } := by
  exact ⟨rfl, rfl⟩

/-- C9: the identity deriver computes the RPC port from bytes 0..2 and the
p2p port from bytes 2..4 of the 8-byte random buffer, each read big-endian
and increased by 1024 with saturating arithmetic, so each derived port lies
in [1024, 65535]. -/
theorem c9_port_derivation (buf : RandBuf)
    (h0 : buf.b0 < 256) (h1 : buf.b1 < 256) (h2 : buf.b2 < 256) (h3 : buf.b3 < 256) :
    NodeConfig.default_rpc_port buf = min (u16_from_be_bytes buf.b0 buf.b1 + 1024) 65535 ∧
    NodeConfig.default_p2p_port buf = min (u16_from_be_bytes buf.b2 buf.b3 + 1024) 65535 ∧
    1024 ≤ NodeConfig.default_rpc_port buf ∧ NodeConfig.default_rpc_port buf ≤ 65535 ∧
    1024 ≤ NodeConfig.default_p2p_port buf ∧ NodeConfig.default_p2p_port buf ≤ 65535 ∧
    (NodeConfig.default buf).rpc_bind =
      "127.0.0.1:" ++ toString (NodeConfig.default_rpc_port buf) ∧
    (NodeConfig.default buf).p2p_bind =
      "127.0.0.1:" ++ toString (NodeConfig.default_p2p_port buf) := by
  refine ⟨rfl, rfl, ?_, ?_, ?_, ?_, rfl, rfl⟩ <;>
    simp only [NodeConfig.default_rpc_port, NodeConfig.default_p2p_port,
      saturating_add_u16, u16_from_be_bytes] <;>
    omega

/-- C9 (witness): at the all-maximum byte pairs the derived ports saturate at
65535 instead of wrapping. -/
theorem c9_port_derivation_witness :
    (255 : Nat) < 256 ∧
    NodeConfig.default_rpc_port
        { b0 := 255, b1 := 255, b2 := 255, b3 := 255, b4 := 0, b5 := 0, b6 := 0, b7 := 0 } =
      min (u16_from_be_bytes 255 255 + 1024) 65535 ∧
    1024 ≤ NodeConfig.default_rpc_port
        { b0 := 255, b1 := 255, b2 := 255, b3 := 255, b4 := 0, b5 := 0, b6 := 0, b7 := 0 } ∧
    NodeConfig.default_rpc_port
        { b0 := 255, b1 := 255, b2 := 255, b3 := 255, b4 := 0, b5 := 0, b6 := 0, b7 := 0 } ≤ 65535 :=
  ⟨by decide,
   (c9_port_derivation _ (by decide) (by decide) (by decide) (by decide)).1,
   (c9_port_derivation
      { b0 := 255, b1 := 255, b2 := 255, b3 := 255, b4 := 0, b5 := 0, b6 := 0, b7 := 0 }
      (by decide) (by decide) (by decide) (by decide)).2.2.1,
   (c9_port_derivation
      { b0 := 255, b1 := 255, b2 := 255, b3 := 255, b4 := 0, b5 := 0, b6 := 0, b7 := 0 }
      (by decide) (by decide) (by decide) (by decide)).2.2.2.1⟩

/-- C2: when the resolved burnchain mode is outside the supported set the
resolution always aborts, and (whenever node resolution itself succeeded) it
aborts precisely with the mode-check error whose message lists the supported
set; when the mode is in the set, resolution never produces the mode-check
error; the message literally lists mocknet, helium, neon, neon-god. -/
theorem c2_mode_validation (ext : Externals) (buf : RandBuf) (env : Option String)
    (cf : ConfigFile) :
    (supported_modes.contains (resolvedMode cf.burnchain) = false →
      (Config.from_config_file ext buf env cf).isOk = false) ∧
    (supported_modes.contains (resolvedMode cf.burnchain) = false →
      ∀ node, resolveNode ext buf cf.node = .ok node →
        Config.from_config_file ext buf env cf =
          .error (.unsupportedMode supported_modes_message)) ∧
    (supported_modes.contains (resolvedMode cf.burnchain) = true →
      ∀ m, Config.from_config_file ext buf env cf ≠ .error (.unsupportedMode m)) ∧
    supported_modes_message =
      "Setting burnchain.network not supported (should be: mocknet, helium, neon, neon-god)" := by
  refine ⟨?_, ?_, ?_, by decide⟩
  · intro h
    cases hn : resolveNode ext buf cf.node with
    | error e => simp [Config.from_config_file, hn, Except.isOk, Except.toBool]
    | ok node =>
      simp only [Config.from_config_file, hn]
      rw [resolveBurnchain_mode, h]
      simp [Except.isOk, Except.toBool]
  · intro h node hn
    simp only [Config.from_config_file, hn]
    rw [resolveBurnchain_mode, h]
    simp
  · intro h m
    cases hn : resolveNode ext buf cf.node with
    | error e =>
      simp only [Config.from_config_file, hn]
      rcases resolveNode_error_shape ext buf cf.node e hn with rfl | rfl <;> simp
    | ok node =>
      simp only [Config.from_config_file, hn]
      rw [resolveBurnchain_mode, h]
      simp only [Bool.true_eq_false, if_false]
      by_cases hh : resolvedMode cf.burnchain = "helium" ∧
          (resolveBurnchain ext node cf.burnchain).local_mining_public_key = none
      · rw [if_pos hh]; simp
      · rw [if_neg hh]
        cases hb : resolveBalances ext cf.mstx_balance with
        | error e =>
          have := resolveBalances_error_shape ext cf.mstx_balance e hb
          subst this
          simp [hb]
        | ok bals =>
          cases ho : resolveObservers ext cf.events_observer with
          | error e =>
            have := resolveObservers_error_shape ext cf.events_observer e ho
            subst this
            simp [hb, ho]
          | ok obs =>
            cases env <;> simp [hb, ho]

/-- C2 (witness): a concrete unsupported mode aborts with the listed-set
message, and the empty document (mode mocknet) never hits the mode check. -/
theorem c2_mode_validation_witness :
    supported_modes.contains (resolvedMode cfModeBad.burnchain) = false ∧
    (Config.from_config_file extDemo bufDemo none cfModeBad).isOk = false ∧
    Config.from_config_file extDemo bufDemo none cfModeBad =
      .error (.unsupportedMode supported_modes_message) ∧
    supported_modes.contains (resolvedMode ConfigFile.empty.burnchain) = true ∧
    Config.from_config_file extDemo bufDemo none ConfigFile.empty ≠
      .error (.unsupportedMode "anything") :=
  ⟨by decide,
   (c2_mode_validation extDemo bufDemo none cfModeBad).1 (by decide),
   (c2_mode_validation extDemo bufDemo none cfModeBad).2.1 (by decide)
     (NodeConfig.default bufDemo) (by decide),
   by decide,
   (c2_mode_validation extDemo bufDemo none ConfigFile.empty).2.2.1 (by decide) "anything"⟩

/-- C3: with resolved mode helium and no mining public key the resolution
always aborts, and (whenever node resolution succeeded) precisely with the
helium-key error; for every supported mode other than helium, resolution
succeeds without a mining key provided the remaining inputs resolve. -/
theorem c3_helium_key_requirement (ext : Externals) (buf : RandBuf) (env : Option String)
    (cf : ConfigFile) :
    (resolvedMode cf.burnchain = "helium" → resolvedMiningKey cf.burnchain = none →
      (Config.from_config_file ext buf env cf).isOk = false) ∧
    (resolvedMode cf.burnchain = "helium" → resolvedMiningKey cf.burnchain = none →
      ∀ node, resolveNode ext buf cf.node = .ok node →
        Config.from_config_file ext buf env cf = .error .heliumMissingKey) ∧
    (supported_modes.contains (resolvedMode cf.burnchain) = true →
      resolvedMode cf.burnchain ≠ "helium" →
      resolvedMiningKey cf.burnchain = none →
      ∀ node bals obs, resolveNode ext buf cf.node = .ok node →
        resolveBalances ext cf.mstx_balance = .ok bals →
        resolveObservers ext cf.events_observer = .ok obs →
        (Config.from_config_file ext buf env cf).isOk = true) := by
  refine ⟨?_, ?_, ?_⟩
  · intro hmode hkey
    cases hn : resolveNode ext buf cf.node with
    | error e => simp [Config.from_config_file, hn, Except.isOk, Except.toBool]
    | ok node =>
      simp only [Config.from_config_file, hn]
      rw [resolveBurnchain_mode, resolveBurnchain_key, hmode, hkey]
      simp [Except.isOk, Except.toBool]
      decide
  · intro hmode hkey node hn
    simp only [Config.from_config_file, hn]
    rw [resolveBurnchain_mode, resolveBurnchain_key, hmode, hkey]
    simp
    decide
  · intro hmode hne hkey node bals obs hn hb ho
    simp only [Config.from_config_file, hn]
    rw [resolveBurnchain_mode, resolveBurnchain_key, hmode]
    simp only [Bool.true_eq_false, if_false]
    rw [if_neg (fun hc => hne hc.1)]
    cases env <;> simp [hb, ho, Except.isOk, Except.toBool]

/-- C3 (witness): helium without a key aborts on a concrete document; neon
without a key resolves on a concrete document. -/
theorem c3_helium_key_requirement_witness :
    resolvedMode cfHeliumNoKey.burnchain = "helium" ∧
    resolvedMiningKey cfHeliumNoKey.burnchain = none ∧
    Config.from_config_file extDemo bufDemo none cfHeliumNoKey =
      .error .heliumMissingKey ∧
    resolvedMode cfNeonNoKey.burnchain = "neon" ∧
    (Config.from_config_file extDemo bufDemo none cfNeonNoKey).isOk = true :=
  ⟨by decide, by decide,
   (c3_helium_key_requirement extDemo bufDemo none cfHeliumNoKey).2.1
     (by decide) (by decide) (NodeConfig.default bufDemo) (by decide),
   by decide,
   (c3_helium_key_requirement extDemo bufDemo none cfNeonNoKey).2.2
     (by decide) (by decide) (by decide) (NodeConfig.default bufDemo) [] []
     (by decide) (by decide) (by decide)⟩

/-- C7: when the observer environment variable is set, the resolved observer
list is exactly the document-declared observers followed by one synthetic
observer at the variable's value subscribed to `[AnyEvent]`; when it is
unset the list is exactly the document-declared observers; an absent
observer section declares zero observers. -/
theorem c7_env_observer_append (ext : Externals) (buf : RandBuf) (cf : ConfigFile)
    (l : List EventObserverConfig)
    (hobs : resolveObservers ext cf.events_observer = .ok l) :
    (∀ v c, Config.from_config_file ext buf (some v) cf = .ok c →
      c.events_observers =
        l ++ [{ endpoint := v, events_keys := [EventKeyType.AnyEvent] }]) ∧
    (∀ c, Config.from_config_file ext buf none cf = .ok c → c.events_observers = l) ∧
    (cf.events_observer = none → l = []) := by
  have invert : ∀ (env : Option String) (c : Config),
      Config.from_config_file ext buf env cf = .ok c →
      c.events_observers = (match env with
        | some v => l ++ [{ endpoint := v, events_keys := [EventKeyType.AnyEvent] }]
        | none => l) := by
    intro env c hc
    cases hn : resolveNode ext buf cf.node with
    | error e => rw [Config.from_config_file, hn] at hc; exact Except.noConfusion hc
    | ok node =>
      rw [Config.from_config_file, hn] at hc
      simp only [] at hc
      by_cases hC1 : supported_modes.contains
          (resolveBurnchain ext node cf.burnchain).mode = false
      · rw [if_pos hC1] at hc; exact Except.noConfusion hc
      · rw [if_neg hC1] at hc
        by_cases hC2 : (resolveBurnchain ext node cf.burnchain).mode = "helium" ∧
            (resolveBurnchain ext node cf.burnchain).local_mining_public_key = none
        · rw [if_pos hC2] at hc; exact Except.noConfusion hc
        · rw [if_neg hC2] at hc
          cases hb : resolveBalances ext cf.mstx_balance with
          | error e => rw [hb] at hc; exact Except.noConfusion hc
          | ok bals =>
            rw [hb] at hc
            simp only [] at hc
            rw [hobs] at hc
            simp only [] at hc
            cases env with
            | none =>
              simp only [] at hc
              cases hc
              rfl
            | some v =>
              simp only [] at hc
              cases hc
              rfl
  exact ⟨fun v c hc => invert (some v) c hc,
         fun c hc => invert none c hc,
         fun hnone => by
           rw [hnone] at hobs
           simp [resolveObservers] at hobs
           exact hobs⟩

/-- C7 (witness): on the empty document the environment variable appends
exactly the one synthetic observer, and with the variable unset no observer
is added. -/
theorem c7_env_observer_append_witness :
    resolveObservers extDemo ConfigFile.empty.events_observer = .ok [] ∧
    (Config.from_config_file extDemo bufDemo (some "http://observer") ConfigFile.empty).toOption.map
        (fun c => c.events_observers) =
      some [{ endpoint := "http://observer", events_keys := [EventKeyType.AnyEvent] }] ∧
    (Config.from_config_file extDemo bufDemo none ConfigFile.empty).toOption.map
        (fun c => c.events_observers) = some [] := by
  refine ⟨rfl, ?_, ?_⟩
  · rcases h : Config.from_config_file extDemo bufDemo (some "http://observer") ConfigFile.empty
        with e | c
    · have hok : (Config.from_config_file extDemo bufDemo (some "http://observer")
          ConfigFile.empty).isOk = true := by decide
      rw [h] at hok
      simp [Except.isOk, Except.toBool] at hok
    · have := (c7_env_observer_append extDemo bufDemo ConfigFile.empty [] rfl).1
        "http://observer" c h
      simp [h, this]
      exact ⟨c, rfl, by simpa using this⟩
  · rcases h : Config.from_config_file extDemo bufDemo none ConfigFile.empty with e | c
    · have hok : (Config.from_config_file extDemo bufDemo none
          ConfigFile.empty).isOk = true := by decide
      rw [h] at hok
      simp [Except.isOk, Except.toBool] at hok
    · have := (c7_env_observer_append extDemo bufDemo ConfigFile.empty [] rfl).2.1 c h
      simp [h, this]
      exact ⟨c, rfl, this⟩

/-- C8: the initial-balance resolution yields the empty list when the
section is absent; when every address parses it yields exactly the in-order
map of the entries through principal parsing; and as soon as any entry's
address fails to parse it aborts with no partial list. -/
theorem c8_initial_balances (ext : Externals) :
    resolveBalances ext none = .ok [] ∧
    (∀ bs : List InitialBalanceFile,
      (∀ b ∈ bs, (ext.parse_standard_principal b.address).isSome) →
      resolveBalances ext (some bs) = .ok (bs.map (fun b =>
        { address := PrincipalData.Standard ((ext.parse_standard_principal b.address).get!)
          amount := b.amount }))) ∧
    (∀ bs : List InitialBalanceFile,
      (∃ b ∈ bs, ext.parse_standard_principal b.address = none) →
      resolveBalances ext (some bs) = .error .badBalanceAddress) := by
  refine ⟨rfl, ?_, ?_⟩
  · intro bs hall
    induction bs with
    | nil => rfl
    | cons b rest ih =>
      have hb := hall b (by simp)
      obtain ⟨p, hp⟩ := Option.isSome_iff_exists.mp hb
      have hrest := ih (fun x hx => hall x (by simp [hx]))
      simp only [resolveBalances] at hrest
      simp only [resolveBalances, resolveBalancesList, hp, hrest, List.map_cons]
      simp [hp]
  · intro bs hex
    induction bs with
    | nil => simp at hex
    | cons b rest ih =>
      rcases hex with ⟨x, hx, hnone⟩
      rcases List.mem_cons.mp hx with rfl | hxr
      · simp only [resolveBalances, resolveBalancesList, hnone]
      · cases hp : ext.parse_standard_principal b.address with
        | none => simp only [resolveBalances, resolveBalancesList, hp]
        | some p =>
          have hr := ih ⟨x, hxr, hnone⟩
          simp only [resolveBalances] at hr
          simp only [resolveBalances, resolveBalancesList, hp, hr]

/-- C8 (witness): one parsing entry maps to its principal; one malformed
entry aborts the whole list. -/
theorem c8_initial_balances_witness :
    (extDemo.parse_standard_principal "SPDEMO").isSome = true ∧
    resolveBalances extDemo (some [{ address := "SPDEMO", amount := 100 }]) =
      .ok [{ address := .Standard ⟨22, [1, 2]⟩, amount := 100 }] ∧
    extDemo.parse_standard_principal "badaddr" = none ∧
    resolveBalances extDemo (some [{ address := "SPDEMO", amount := 1 },
                                   { address := "badaddr", amount := 2 }]) =
      .error .badBalanceAddress := by
  refine ⟨by decide, ?_, by decide, ?_⟩
  · exact ((c8_initial_balances extDemo).2.1 _ (by decide)).trans (by decide)
  · exact (c8_initial_balances extDemo).2.2 _
      ⟨{ address := "badaddr", amount := 2 }, by decide, by decide⟩

/-- C10: every successful resolution carries the compiled-in default magic
bytes, and replacing the document's `magic_bytes` field (which the input
schema accepts) changes nothing about the resolution. -/
theorem c10_magic_bytes_ignored (ext : Externals) (buf : RandBuf) (env : Option String)
    (cf : ConfigFile) :
    (∀ c, Config.from_config_file ext buf env cf = .ok c →
      c.burnchain.magic_bytes = ext.blockstack_magic_mainnet) ∧
    (∀ (b : BurnchainConfigFile) (m1 m2 : Option String),
      Config.from_config_file ext buf env
          { cf with burnchain := some { b with magic_bytes := m1 } } =
        Config.from_config_file ext buf env
          { cf with burnchain := some { b with magic_bytes := m2 } }) := by
  constructor
  · intro c hc
    cases hn : resolveNode ext buf cf.node with
    | error e => rw [Config.from_config_file, hn] at hc; exact Except.noConfusion hc
    | ok node =>
      rw [Config.from_config_file, hn] at hc
      simp only [] at hc
      by_cases hC1 : supported_modes.contains
          (resolveBurnchain ext node cf.burnchain).mode = false
      · rw [if_pos hC1] at hc; exact Except.noConfusion hc
      · rw [if_neg hC1] at hc
        by_cases hC2 : (resolveBurnchain ext node cf.burnchain).mode = "helium" ∧
            (resolveBurnchain ext node cf.burnchain).local_mining_public_key = none
        · rw [if_pos hC2] at hc; exact Except.noConfusion hc
        · rw [if_neg hC2] at hc
          cases hb : resolveBalances ext cf.mstx_balance with
          | error e => rw [hb] at hc; exact Except.noConfusion hc
          | ok bals =>
            rw [hb] at hc
            simp only [] at hc
            cases ho : resolveObservers ext cf.events_observer with
            | error e => rw [ho] at hc; exact Except.noConfusion hc
            | ok obs =>
              rw [ho] at hc
              simp only [] at hc
              cases env with
              | none =>
                simp only [] at hc
                cases hc
                exact resolveBurnchain_magic ext node cf.burnchain
              | some v =>
                simp only [] at hc
                cases hc
                exact resolveBurnchain_magic ext node cf.burnchain
  · intro b m1 m2
    rfl

/-- C10 (witness): a concrete document supplying `magic_bytes` still
resolves to the compiled-in default, and swapping the supplied value for
another changes nothing. -/
theorem c10_magic_bytes_ignored_witness :
    (Config.from_config_file extDemo bufDemo none cfMagicDemo).toOption.map
        (fun c => c.burnchain.magic_bytes) = some extDemo.blockstack_magic_mainnet ∧
    Config.from_config_file extDemo bufDemo none
        { ConfigFile.empty with
          burnchain := some { BurnchainConfigFile.empty with magic_bytes := some "aa" } } =
      Config.from_config_file extDemo bufDemo none
        { ConfigFile.empty with
          burnchain := some { BurnchainConfigFile.empty with magic_bytes := some "bb" } } := by
  constructor
  · rcases h : Config.from_config_file extDemo bufDemo none cfMagicDemo with e | c
    · have hok : (Config.from_config_file extDemo bufDemo none cfMagicDemo).isOk = true := by
        decide
      rw [h] at hok
      simp [Except.isOk, Except.toBool] at hok
    · have := (c10_magic_bytes_ignored extDemo bufDemo none cfMagicDemo).1 c h
      simp [h, this]
      exact ⟨c, rfl, this⟩
  · exact (c10_magic_bytes_ignored extDemo bufDemo none ConfigFile.empty).2
      BurnchainConfigFile.empty (some "aa") (some "bb")

end StacksConfig
